import Mathlib

/-!
# Verification of the `listener` middleware pipeline (`main.go`)

A shallow embedding of the three middleware components of `main.go`
(`PreRequest`, `CustomRecover`, `GenCustomHttpErrorHandler`) together with the
small part of the `echo` context, the `net/http` request and the Go runtime they
touch, followed by theorems about them.

Modelling conventions.

* A Go `string` and the contents of a `[]byte` are both finite byte sequences;
  the conversion `string(b)` copies the bytes and is the identity on contents.
* An `interface{}` value is a `Value`; the nil interface is `none : Option Value`.
* A handler is a state transformer on the request context that either returns an
  `error` (possibly nil) or panics with a non-nil value, so that `recover()` is nil
  exactly when the goroutine is not panicking (`panic(nil)` is not modelled; from
  Go 1.21 the runtime delivers it as a non-nil `*runtime.PanicNilError`).
* Handlers, transforms and `Error()` methods are total functions: one that does not
  terminate, or a transform that panics, is not modelled.
* A stream is consumed by reading it: `ioutil.ReadAll` hands back the stream drained.
* `c.JSON` can fail: an envelope that `encoding/json` rejects is not written, and the
  response is left as committed as it was.
* The lines written by `log.Log` and the goroutine stack trace reported by
  `runtime.Stack` belong to the ambient process; they are carried in the context
  record so that every effect of a handler is visible in its result.
-/

namespace Listener

/-! ## Go values -/

/-- Contents of a Go byte slice. -/
abbrev Bytes := List UInt8

/-- Contents of a Go string: an immutable sequence of bytes. -/
abbrev GoString := List UInt8

/-- The Go string denoted by a source literal (its UTF-8 encoding). -/
def lit (s : String) : GoString := s.toUTF8.data.toList

/-- The conversion `string(b)` of a byte slice: a copy of the same bytes. -/
def stringOfBytes (b : Bytes) : GoString := b

/-- Constant `BodyField = "body"` (main.go line 18). -/
def BodyField : GoString := lit "body"

/-- A non-nil value of interface type `error`: its dynamic type and the string its
`Error()` method returns. -/
structure GoError where
  typ : GoString
  msg : GoString
deriving DecidableEq, Repr

/-- Method `Error()` of an error value. -/
def GoError.Error (e : GoError) : GoString := e.msg

/-- A non-nil value of type `interface{}`: a string, a value implementing `error`, or a
value of any other dynamic type, represented by the name of that type and by its
formatting under the verb `%v`. -/
inductive Value where
  | str (s : GoString)
  | error (e : GoError)
  | other (typ : GoString) (rendering : GoString)
deriving DecidableEq, Repr

/-- Name of the dynamic type of a value, as the runtime prints it. -/
def Value.typeName : Value → GoString
  | Value.str _ => lit "string"
  | Value.error e => e.typ
  | Value.other typ _ => typ

/-- Formatting of one operand under the verb `%v`: a string prints as itself, an error
prints the result of `Error()`. -/
def fmtV : Value → GoString
  | Value.str s => s
  | Value.error e => e.Error
  | Value.other _ rendering => rendering

/-- Function `errors.New`. -/
def errorsNew (text : GoString) : GoError := ⟨lit "*errors.errorString", text⟩

/-- Call `fmt.Errorf("%v", r)`: with no `%w` verb the result is `errors.New` of the
formatted text. -/
def Errorf_v (r : Value) : GoError := errorsNew (fmtV r)

/-- A value held in a `Dict`, seen through the two things main.go does with it: it is
printed with `%v` in a log line and it is handed to `encoding/json`. A Go string always
encodes. Any other value is represented by the name of its dynamic type, by its `%v`
formatting and by `marshalErr`, the error `encoding/json` returns for it (a channel, a
function, a NaN, a failing `MarshalJSON`), `none` when the value encodes. -/
inductive DictValue where
  | str (s : GoString)
  | other (typ : GoString) (rendering : GoString) (marshalErr : Option GoError)
deriving DecidableEq, Repr

/-- Type `Dict` (`map[string]interface{}`, main.go line 21), written as the list of its
entries in the order in which `encoding/json` visits them (sorted by key). -/
abbrev Dict := List (GoString × DictValue)

/-- The error `encoding/json` returns for one value of a `Dict`, `none` when it encodes. -/
def DictValue.marshalErr : DictValue → Option GoError
  | DictValue.str _ => none
  | DictValue.other _ _ e => e

/-- The error `json.NewEncoder(w).Encode(i)` returns for the envelope `i` before anything
is written to `w`: the error of the first entry that does not encode, `none` when the
whole envelope encodes. -/
def marshalErr (i : Dict) : Option GoError := i.findSome? (fun kv => kv.2.marshalErr)

/-- Type `ErrToRespFunc` (main.go line 22); a nil function value is `none` of
`Option ErrToRespFunc`. -/
abbrev ErrToRespFunc := GoError → Dict

/-- Function `strings.Trim(s, cutset)` for a cutset of ASCII bytes: every leading and
every trailing byte contained in `cutset` is removed. -/
def Trim (s : GoString) (cutset : GoString) : GoString :=
  ((s.reverse.dropWhile (fun b => cutset.contains b)).reverse).dropWhile
    (fun b => cutset.contains b)

/-! ## Request bodies -/

/-- The state of a request body stream (`io.ReadCloser`): the bytes its `Read` calls
still have to deliver, and the error that ends the stream (`none` when it ends with
`io.EOF`). Reading consumes the stream. Only streams that end are modelled. -/
structure Reader where
  data : Bytes
  fail : Option GoError
deriving DecidableEq, Repr

/-- Function `ioutil.ReadAll`: its two results, every byte delivered before the stream
ended and the error that ended it (`nil` for `io.EOF`), together with the stream as the
call leaves it: drained, with nothing more to deliver and ending the way it ended. -/
def ReadAll (r : Reader) : (Bytes × Option GoError) × Reader :=
  ((r.data, r.fail), ⟨[], r.fail⟩)

/-- Function `bytes.NewBuffer(buf)`: a reader over `buf` that ends with `io.EOF`. -/
def NewBuffer (buf : Bytes) : Reader := ⟨buf, none⟩

/-- Function `ioutil.NopCloser`: the same reader with a `Close` that does nothing. -/
def NopCloser (r : Reader) : Reader := r

/-! ## Request, response, context -/

/-- The fields of `http.Request` used by the middleware. `Body = none` is a nil body. -/
structure Request where
  Method : GoString
  RequestURI : GoString
  Body : Option Reader
deriving DecidableEq, Repr

/-- An `echo.Response` with its underlying writer. `Status` and `Committed` are the
fields of `echo.Response`; `header` is the status line the underlying writer has sent
and `body` the JSON documents it has sent, oldest first. The underlying writer is
reached only through the `echo.Response`. Response headers other than the status
line are not modelled. -/
structure Response where
  Status : Nat
  Committed : Bool
  header : Option Nat
  body : List Dict
deriving DecidableEq, Repr

/-- An argument of a `log.Log` call. -/
inductive LogArg where
  | str (s : GoString)
  | dict (d : Dict)
deriving DecidableEq, Repr

/-- One call of `log.Log(format, args...)`. -/
structure LogLine where
  format : GoString
  args : List LogArg
deriving DecidableEq, Repr

/-- An `echo.Context` during one request, with the two pieces of process state the
middleware reads or writes: the lines emitted through `log.Log` (oldest first) and
the stack trace `runtime.Stack` reports for the current goroutine. -/
structure Context where
  request : Request
  response : Response
  store : GoString → Option Value
  log : List LogLine
  trace : Bytes

/-- Method `(*echo.Response).WriteHeader`: ignored on a committed response, otherwise
sets `Status`, sends the status line and commits. -/
def Response.WriteHeader (r : Response) (code : Nat) : Response :=
  if r.Committed then r
  else { r with Status := code, header := some code, Committed := true }

/-- Method `(*echo.Response).Write` for the encoding of one JSON document: commits the
response first when it is not committed (a zero `Status` becomes 200), then hands the
bytes to the underlying writer in every case. -/
def Response.Write (r : Response) (doc : Dict) : Response :=
  let r1 :=
    if r.Committed then r
    else
      let r0 := if r.Status = 0 then { r with Status := 200 } else r
      r0.WriteHeader r0.Status
  { r1 with body := r1.body ++ [doc] }

/-- Method `c.Set(key, val)`. -/
def Context.Set (c : Context) (key : GoString) (val : Value) : Context :=
  { c with store := fun k => if k = key then some val else c.store k }

/-- Method `c.Get(key)`; `none` is the nil interface returned for a missing key. -/
def Context.Get (c : Context) (key : GoString) : Option Value := c.store key

/-- Method `c.JSON(code, i)` of echo v4: stores `code` in the `Status` field of the
response, then encodes `i`; when the encoder rejects `i` nothing is written, the response
stays as committed as it was and the encoder's error is returned; otherwise the
document is written through the response and nil is returned. The codes main.go passes
are 200 and 500; the panic of `net/http` on a code outside 100..999 is not modelled. -/
def Context.JSON (c : Context) (code : Nat) (i : Dict) : Context × Option GoError :=
  let r : Response := { c.response with Status := code }
  match marshalErr i with
  | some e => ({ c with response := r }, some e)
  | none => ({ c with response := r.Write i }, none)

/-- Function `log.Log(format, args...)`: one more line in the log. -/
def Log (c : Context) (format : GoString) (args : List LogArg) : Context :=
  { c with log := c.log ++ [⟨format, args⟩] }

/-- Call `runtime.Stack(buf, false)` on a buffer of `size` bytes, followed by
`buf[:length]`: the trace, truncated to the buffer. -/
def runtimeStack (c : Context) (size : Nat) : Bytes := c.trace.take size

/-- How a handler call ends: it returns an `error` (`none` is nil), or it panics with
a value. -/
inductive Exit where
  | returned (err : Option GoError)
  | panicked (r : Value)
deriving DecidableEq, Repr

/-- Type `echo.HandlerFunc`: the context after the call and how the call ended. -/
abbrev HandlerFunc := Context → Context × Exit

/-- The panic value of a failed single-value type assertion `x.(string)` on an
`interface{}` operand: a `*runtime.TypeAssertionError`. -/
def typeAssertionError (x : Option Value) : GoError :=
  ⟨lit "*runtime.TypeAssertionError",
   lit "interface conversion: interface \x7b\x7d is " ++
     (match x with
      | none => lit "nil"
      | some v => v.typeName) ++ lit ", not string"⟩

/-! ## The functions of main.go -/

/-- Function `listenerHandler` (main.go lines 59-63). -/
def listenerHandler : HandlerFunc := fun c =>
  let out := c.JSON 200 [(lit "success", DictValue.other (lit "bool") (lit "true") none)]
  (out.1, Exit.returned out.2)

/-- Function `PreRequest` (main.go lines 65-80). -/
def PreRequest (next : HandlerFunc) : HandlerFunc := fun c =>
  match c.request.Body with
  | some body =>
    -- bodyBytes, _ = ioutil.ReadAll(req.Body): the error is dropped, the stream is consumed
    let bodyBytes := (ReadAll body).1.1
    let c0 : Context := { c with request := { c.request with Body := some (ReadAll body).2 } }
    -- req.Body = ioutil.NopCloser(bytes.NewBuffer(bodyBytes))
    let c1 : Context :=
      { c0 with request := { c0.request with Body := some (NopCloser (NewBuffer bodyBytes)) } }
    -- c.Set(BodyField, string(bodyBytes))
    let c2 := c1.Set BodyField (Value.str (stringOfBytes bodyBytes))
    next c2
  | none => next c

/-- The error bound to `err` in the deferred function of `CustomRecover` (main.go lines
98-101): `err, ok := r.(error); if !ok { err = fmt.Errorf("%v", r) }`. -/
def recoveredError (r : Value) : GoError :=
  match r with
  | Value.error e => e
  | _ => Errorf_v r

/-- Function `CustomRecover` (main.go lines 93-124). The deferred function runs when
`next` has ended; `recover()` is non-nil exactly when `next` panicked. A panic raised
inside the deferred function leaves the handler as a new panic. -/
def CustomRecover (provider : GoString) (panicErrToRespFunc : Option ErrToRespFunc)
    (next : HandlerFunc) : HandlerFunc := fun c =>
  match next c with
  | (c1, Exit.returned e) => (c1, Exit.returned e)
  | (c1, Exit.panicked r) =>
    let err : GoError := recoveredError r
    let c2 := Log c1 (lit "<<<<<<< %v-x START RECOVER %s: %s")
      [LogArg.str provider, LogArg.str c1.request.Method, LogArg.str c1.request.RequestURI]
    -- reqBody := c.Get(BodyField).(string)
    match c2.Get BodyField with
    | some (Value.str reqBody) =>
      let c3 := Log c2 (lit "=> %v-x: request body: %s") [LogArg.str provider, LogArg.str reqBody]
      let stack := runtimeStack c3 (4 * 2 ^ 10)
      -- msg := fmt.Sprintf("PanicRecover %v %s", err, stack[:length])
      let msg := lit "PanicRecover " ++ err.Error ++ lit " " ++ stack
      let msg := Trim msg (lit "\n\t ")
      let c4 := Log c3 msg []
      let resp : Dict :=
        match panicErrToRespFunc with
        | none => [(lit "err", DictValue.str (lit "err:internal_error"))]
        | some f => f err
      -- c.JSON(http.StatusInternalServerError, resp): the error result is dropped
      let c5 := (c4.JSON 500 resp).1
      let c6 := Log c5 (lit "=> %v-x: response body: %v") [LogArg.str provider, LogArg.dict resp]
      let c7 := Log c6 (lit ">>>>>>> %v-x END RECOVER") [LogArg.str provider]
      (c7, Exit.returned none)
    | x => (c2, Exit.panicked (Value.error (typeAssertionError x)))

/-- Function `GenCustomHttpErrorHandler` (main.go lines 126-139), applied to a non-nil
error. -/
def GenCustomHttpErrorHandler (errToRespFunc : Option ErrToRespFunc) (err : GoError)
    (c : Context) : Context :=
  if c.response.Committed then c
  else
    let body : Dict :=
      match errToRespFunc with
      | none => [(lit "err", DictValue.str err.Error)]
      | some f => f err
    -- c.JSON(http.StatusOK, body): the error result is dropped
    (c.JSON 200 body).1

/-! ## Sample inputs -/

/-- A fresh response: nothing stored, nothing sent. -/
def freshResponse : Response := ⟨0, false, none, []⟩

/-- A request context at the start of a `POST /anything` request with the given body
stream, an empty store and an empty log. -/
def sampleContext (body : Option Reader) : Context :=
  { request := ⟨lit "POST", lit "/anything", body⟩
    response := freshResponse
    store := fun _ => none
    log := []
    trace := lit "goroutine 1 [running]:" }

/-- A body stream that delivers the four bytes `{"x"` and then fails. -/
def brokenBody : Reader := ⟨lit "\x7b\"x\"", some ⟨lit "*errors.errorString", lit "unexpected EOF"⟩⟩

/-- A body stream that delivers `{"x":1}` and ends normally. -/
def goodBody : Reader := ⟨lit "\x7b\"x\":1\x7d", none⟩

/-- A handler that does nothing and returns nil. -/
def nopHandler : HandlerFunc := fun c => (c, Exit.returned none)

/-- A handler that returns the ordinary error "not found". -/
def failingHandler : HandlerFunc := fun c =>
  (c, Exit.returned (some (errorsNew (lit "not found"))))

/-- A handler that panics with the string "boom" without touching the context. -/
def panickingHandler : HandlerFunc := fun c => (c, Exit.panicked (Value.str (lit "boom")))

/-- A handler that stores a non-string value under `BodyField` and then panics. -/
def overwritingHandler : HandlerFunc := fun c =>
  (c.Set BodyField (Value.other (lit "int") (lit "7")), Exit.panicked (Value.str (lit "boom")))

/-- A handler that writes the success envelope like `listenerHandler` and then panics. -/
def lateFaultHandler : HandlerFunc := fun c =>
  ((listenerHandler c).1, Exit.panicked (Value.str (lit "boom")))

/-- A transform that returns the fixed envelope with the entry `"code": 42`. -/
def codeTransform : ErrToRespFunc := fun _ =>
  [(lit "code", DictValue.other (lit "int") (lit "42") none)]

/-- A transform whose envelope holds the `float64` NaN, which `encoding/json` rejects. -/
def nanTransform : ErrToRespFunc := fun _ =>
  [(lit "ratio", DictValue.other (lit "float64") (lit "NaN")
      (some ⟨lit "*json.UnsupportedValueError", lit "json: unsupported value: NaN"⟩))]

/-! ## Helper lemmas -/

/-- Unfolding of `PreRequest` on a request with a body stream. -/
theorem PreRequest_of_body (next : HandlerFunc) (c : Context) (rd : Reader)
    (hbody : c.request.Body = some rd) :
    PreRequest next c =
      next (({ c with request :=
                { c.request with Body := some (NopCloser (NewBuffer (ReadAll rd).1.1)) } } :
              Context).Set BodyField (Value.str (stringOfBytes (ReadAll rd).1.1))) := by
  unfold PreRequest
  rw [hbody]

/-- An envelope with a single string entry encodes. -/
theorem marshalErr_single_str (k s : GoString) :
    marshalErr [(k, DictValue.str s)] = none := rfl

/-- Unfolding of `c.JSON` on a response that is not committed, for an envelope that
encodes. -/
theorem JSON_response_of_not_committed (c : Context) (code : Nat) (i : Dict)
    (hc : c.response.Committed = false) (henc : marshalErr i = none) :
    (c.JSON code i).1.response =
      ⟨if code = 0 then 200 else code, true, some (if code = 0 then 200 else code),
        c.response.body ++ [i]⟩ := by
  unfold Context.JSON Response.Write Response.WriteHeader
  rw [henc]
  by_cases h0 : code = 0 <;> simp [hc, h0]

/-- Unfolding of `c.JSON` for an envelope that does not encode: only the `Status` field
changes. -/
theorem JSON_response_of_rejected (c : Context) (code : Nat) (i : Dict) (e : GoError)
    (henc : marshalErr i = some e) :
    (c.JSON code i).1.response = { c.response with Status := code } := by
  unfold Context.JSON
  rw [henc]

/-- Unfolding of `CustomRecover` when the wrapped handler panics and the store holds a
string under `BodyField`: the call returns nil, and the response is the one left by the
wrapped handler after `c.JSON(500, resp)`. -/
theorem CustomRecover_of_panic (provider : GoString) (t : Option ErrToRespFunc)
    (next : HandlerFunc) (c c1 : Context) (r : Value) (b : GoString)
    (hnext : next c = (c1, Exit.panicked r))
    (hbody : c1.Get BodyField = some (Value.str b)) :
    (CustomRecover provider t next c).2 = Exit.returned none ∧
    (CustomRecover provider t next c).1.response =
      (c1.JSON 500
        (match t with
         | none => [(lit "err", DictValue.str (lit "err:internal_error"))]
         | some f => f (recoveredError r))).1.response := by
  have hget : (Log c1 (lit "<<<<<<< %v-x START RECOVER %s: %s")
      [LogArg.str provider, LogArg.str c1.request.Method,
        LogArg.str c1.request.RequestURI]).Get BodyField = some (Value.str b) := hbody
  unfold CustomRecover
  simp only [hnext]
  split
  · refine ⟨rfl, ?_⟩
    unfold Context.JSON
    split <;> rfl
  · rename_i x hx
    exact absurd hget (hx b)

/-- The envelope chosen by either error path encodes when the transform is nil or its
output encodes. -/
theorem envelope_encodes (t : Option ErrToRespFunc) (e : GoError) (k s : GoString) :
    (∀ f, t = some f → marshalErr (f e) = none) →
    marshalErr
      (match t with
       | none => [(k, DictValue.str s)]
       | some f => f e) = none := by
  intro henc
  cases t with
  | none => rfl
  | some f => exact henc f rfl

/-- Unfolding of `GenCustomHttpErrorHandler` on a response that is not committed. -/
theorem GenCustomHttpErrorHandler_of_not_committed (t : Option ErrToRespFunc)
    (err : GoError) (c : Context) (hc : c.response.Committed = false) :
    GenCustomHttpErrorHandler t err c =
      (c.JSON 200
        (match t with
         | none => [(lit "err", DictValue.str err.Error)]
         | some f => f err)).1 := by
  unfold GenCustomHttpErrorHandler
  simp only [hc, Bool.false_eq_true, if_false]

/-- On a response that is not committed, a `c.JSON` call that has sent a document has
committed the response. -/
theorem JSON_commits_when_it_writes (c : Context) (code : Nat) (i : Dict)
    (hc : c.response.Committed = false)
    (hw : (c.JSON code i).1.response.body ≠ c.response.body) :
    (c.JSON code i).1.response.Committed = true := by
  cases henc : marshalErr i with
  | none => rw [JSON_response_of_not_committed c code i hc henc]
  | some e =>
    rw [JSON_response_of_rejected c code i e henc] at hw
    exact absurd rfl hw

/-- Whatever the envelope, `c.JSON` leaves request, store and log as they were. -/
theorem JSON_frame (c : Context) (code : Nat) (i : Dict) :
    (c.JSON code i).1.request = c.request ∧ (c.JSON code i).1.store = c.store ∧
    (c.JSON code i).1.log = c.log := by
  unfold Context.JSON
  split <;> exact ⟨rfl, rfl, rfl⟩

/-! ## Body capture (`PreRequest`) -/

/-- C1: when the request body is non-nil and is read to the end without error, yielding
the bytes `b`, `PreRequest next` calls `next` once, on a context `c1` that holds
`string(b)` under "body" and whose request body is a fresh stream that yields exactly
`b` when read, and it returns the result of that call unchanged. -/
theorem PreRequest_captures_and_restores_body (c : Context) (rd : Reader) (b : Bytes)
    (hbody : c.request.Body = some rd) (hread : (ReadAll rd).1 = (b, none)) :
    ∃ (c1 : Context) (fresh : Reader),
      c1.Get BodyField = some (Value.str (stringOfBytes b)) ∧
      c1.request.Body = some fresh ∧ (ReadAll fresh).1 = (b, none) ∧
      ∀ next : HandlerFunc, PreRequest next c = next c1 := by
  have hb : (ReadAll rd).1.1 = b := by rw [hread]
  refine ⟨_, NopCloser (NewBuffer b), ?_, ?_, rfl, fun next => PreRequest_of_body next c rd hbody⟩
  · simp [Context.Get, Context.Set, hb]
  · simp [Context.Set, hb]

/-- Witness of C1 on a `POST` whose body is `{"x":1}`. -/
theorem PreRequest_captures_and_restores_body_witness :
    (sampleContext (some goodBody)).request.Body = some goodBody ∧
    (ReadAll goodBody).1 = (goodBody.data, none) ∧
    ∃ (c1 : Context) (fresh : Reader),
      c1.Get BodyField = some (Value.str (stringOfBytes goodBody.data)) ∧
      c1.request.Body = some fresh ∧ (ReadAll fresh).1 = (goodBody.data, none) ∧
      ∀ next : HandlerFunc, PreRequest next (sampleContext (some goodBody)) = next c1 :=
  ⟨rfl, rfl,
    PreRequest_captures_and_restores_body (sampleContext (some goodBody)) goodBody
      goodBody.data rfl rfl⟩

/-- C8, as stated, fails: on the request whose body delivers four bytes and then fails,
there is no context with the original body stream on which `PreRequest next` calls
`next`; the handler sees a substituted stream. -/
theorem PreRequest_read_failure_substitutes_body :
    (sampleContext (some brokenBody)).request.Body = some brokenBody ∧
    (ReadAll brokenBody).1.2 ≠ none ∧
    ¬ ∃ c1 : Context,
        c1.request.Body = (sampleContext (some brokenBody)).request.Body ∧
        ∀ next : HandlerFunc, PreRequest next (sampleContext (some brokenBody)) = next c1 := by
  refine ⟨rfl, by simp [ReadAll, brokenBody], ?_⟩
  rintro ⟨c1, hb, h⟩
  have h1 := congrArg (fun p => p.1.request.Body) (h nopHandler)
  have h2 : (PreRequest nopHandler (sampleContext (some brokenBody))).1.request.Body =
      some ⟨brokenBody.data, none⟩ := rfl
  have h3 : (nopHandler c1).1.request.Body = c1.request.Body := rfl
  simp only [h2, h3, hb] at h1
  have h4 : (sampleContext (some brokenBody)).request.Body = some brokenBody := rfl
  rw [h4] at h1
  have h5 := congrArg (fun o => o.map Reader.fail) h1
  simp [brokenBody] at h5

/-- C8, amended: when reading the request body fails after delivering the bytes `p`,
`PreRequest next` still calls `next` once and returns its result unchanged; `next` runs
on a context that holds `string(p)` under "body" and whose request body is a fresh
stream that yields exactly `p` and ends without error. -/
theorem PreRequest_read_failure_continues (c : Context) (rd : Reader) (p : Bytes)
    (e : GoError) (hbody : c.request.Body = some rd) (hread : (ReadAll rd).1 = (p, some e)) :
    ∃ (c1 : Context) (fresh : Reader),
      c1.Get BodyField = some (Value.str (stringOfBytes p)) ∧
      c1.request.Body = some fresh ∧ (ReadAll fresh).1 = (p, none) ∧
      ∀ next : HandlerFunc, PreRequest next c = next c1 := by
  have hp : (ReadAll rd).1.1 = p := by rw [hread]
  refine ⟨_, NopCloser (NewBuffer p), ?_, ?_, rfl, fun next => PreRequest_of_body next c rd hbody⟩
  · simp [Context.Get, Context.Set, hp]
  · simp [Context.Set, hp]

/-- Witness of the amended C8 on the body that fails after four bytes. -/
theorem PreRequest_read_failure_continues_witness :
    (sampleContext (some brokenBody)).request.Body = some brokenBody ∧
    (ReadAll brokenBody).1 = (brokenBody.data, some (errorsNew (lit "unexpected EOF"))) ∧
    ∃ (c1 : Context) (fresh : Reader),
      c1.Get BodyField = some (Value.str (stringOfBytes brokenBody.data)) ∧
      c1.request.Body = some fresh ∧ (ReadAll fresh).1 = (brokenBody.data, none) ∧
      ∀ next : HandlerFunc, PreRequest next (sampleContext (some brokenBody)) = next c1 :=
  ⟨rfl, rfl,
    PreRequest_read_failure_continues (sampleContext (some brokenBody)) brokenBody
      brokenBody.data (errorsNew (lit "unexpected EOF")) rfl rfl⟩

/-- C10: when the request body is nil, `PreRequest next` changes neither the request nor
the context (no entry is set, the body stays nil): it calls `next` once on the context
it received and returns the result of that call unchanged. -/
theorem PreRequest_nil_body_is_next (next : HandlerFunc) (c : Context)
    (hbody : c.request.Body = none) : PreRequest next c = next c := by
  unfold PreRequest
  rw [hbody]

/-- Witness of C10 on a request without body and the handler `listenerHandler`. -/
theorem PreRequest_nil_body_is_next_witness :
    (sampleContext none).request.Body = none ∧
    PreRequest listenerHandler (sampleContext none) = listenerHandler (sampleContext none) :=
  ⟨rfl, PreRequest_nil_body_is_next listenerHandler (sampleContext none) rfl⟩

/-! ## Recovery (`CustomRecover`) -/

/-- C2, as stated, fails: with the transform whose envelope holds a NaN, a handler that
panics with "boom" while the context holds a string under "body" and the response is not
committed, `c.JSON(500, t(e))` cannot encode the envelope; `CustomRecover` returns with
nothing sent: no status line, no document, response not committed. -/
theorem CustomRecover_unencodable_envelope_writes_nothing :
    PreRequest panickingHandler (sampleContext (some goodBody)) =
      ((PreRequest nopHandler (sampleContext (some goodBody))).1,
        Exit.panicked (Value.str (lit "boom"))) ∧
    (PreRequest nopHandler (sampleContext (some goodBody))).1.Get BodyField =
      some (Value.str goodBody.data) ∧
    (PreRequest nopHandler (sampleContext (some goodBody))).1.response.Committed = false ∧
    (CustomRecover (lit "PAZEMO") (some nanTransform) (PreRequest panickingHandler)
      (sampleContext (some goodBody))).1.response.header = none ∧
    (CustomRecover (lit "PAZEMO") (some nanTransform) (PreRequest panickingHandler)
      (sampleContext (some goodBody))).1.response.Committed = false ∧
    (CustomRecover (lit "PAZEMO") (some nanTransform) (PreRequest panickingHandler)
      (sampleContext (some goodBody))).1.response.body = [] ∧
    (CustomRecover (lit "PAZEMO") (some nanTransform) (PreRequest panickingHandler)
      (sampleContext (some goodBody))).1.response.body ≠
      (PreRequest nopHandler (sampleContext (some goodBody))).1.response.body ++
        [nanTransform (errorsNew (lit "boom"))] :=
  ⟨rfl, rfl, rfl, rfl, rfl, rfl, by
    have h : (CustomRecover (lit "PAZEMO") (some nanTransform) (PreRequest panickingHandler)
      (sampleContext (some goodBody))).1.response.body = [] := rfl
    rw [h]
    exact fun h0 => List.noConfusion h0⟩

/-- C2, amended: when the wrapped handler panics with the value `r`, leaving a string
under "body" and a response that is not committed, and the transform `t` is nil or its
envelope `t(e)` is accepted by the JSON encoder, `CustomRecover provider t next` writes
one response with status 500 whose body is the envelope with the single entry
"err": "err:internal_error" when `t` is nil and `t(e)` otherwise, where `e` is `r` itself
when `r` is an error and otherwise an error whose message is the `%v` formatting of `r`. -/
theorem CustomRecover_fault_writes_500 (provider : GoString) (t : Option ErrToRespFunc)
    (next : HandlerFunc) (c c1 : Context) (r : Value) (b : GoString)
    (hnext : next c = (c1, Exit.panicked r))
    (hbody : c1.Get BodyField = some (Value.str b))
    (hc : c1.response.Committed = false)
    (henc : ∀ f, t = some f → marshalErr (f (recoveredError r)) = none) :
    ∃ e : GoError,
      (∀ e0, r = Value.error e0 → e = e0) ∧
      ((∀ e0, r ≠ Value.error e0) → e.Error = fmtV r) ∧
      (CustomRecover provider t next c).1.response.Status = 500 ∧
      (CustomRecover provider t next c).1.response.header = some 500 ∧
      (CustomRecover provider t next c).1.response.Committed = true ∧
      (CustomRecover provider t next c).1.response.body =
        c1.response.body ++
          [match t with
           | none => [(lit "err", DictValue.str (lit "err:internal_error"))]
           | some f => f e] := by
  refine ⟨recoveredError r, ?_, ?_, ?_⟩
  · intro e0 h0
    subst h0
    rfl
  · intro hne
    cases r with
    | error e0 => exact absurd rfl (hne e0)
    | str s => rfl
    | other ty rendering => rfl
  · rw [(CustomRecover_of_panic provider t next c c1 r b hnext hbody).2,
      JSON_response_of_not_committed _ _ _ hc (envelope_encodes t _ _ _ henc)]
    simp

/-- Witness of the amended C2: the whole chain `CustomRecover` around `PreRequest` around
a handler that panics with the string "boom", with the transform answering `"code": 42`. -/
theorem CustomRecover_fault_writes_500_witness :
    PreRequest panickingHandler (sampleContext (some goodBody)) =
      ((PreRequest nopHandler (sampleContext (some goodBody))).1,
        Exit.panicked (Value.str (lit "boom"))) ∧
    (PreRequest nopHandler (sampleContext (some goodBody))).1.Get BodyField =
      some (Value.str goodBody.data) ∧
    (PreRequest nopHandler (sampleContext (some goodBody))).1.response.Committed = false ∧
    (∀ f, some codeTransform = some f →
      marshalErr (f (recoveredError (Value.str (lit "boom")))) = none) ∧
    ∃ e : GoError,
      (∀ e0, Value.str (lit "boom") = Value.error e0 → e = e0) ∧
      ((∀ e0, Value.str (lit "boom") ≠ Value.error e0) → e.Error = fmtV (Value.str (lit "boom"))) ∧
      (CustomRecover (lit "PAZEMO") (some codeTransform) (PreRequest panickingHandler)
        (sampleContext (some goodBody))).1.response.Status = 500 ∧
      (CustomRecover (lit "PAZEMO") (some codeTransform) (PreRequest panickingHandler)
        (sampleContext (some goodBody))).1.response.header = some 500 ∧
      (CustomRecover (lit "PAZEMO") (some codeTransform) (PreRequest panickingHandler)
        (sampleContext (some goodBody))).1.response.Committed = true ∧
      (CustomRecover (lit "PAZEMO") (some codeTransform) (PreRequest panickingHandler)
        (sampleContext (some goodBody))).1.response.body =
        (PreRequest nopHandler (sampleContext (some goodBody))).1.response.body ++
          [codeTransform e] :=
  ⟨rfl, rfl, rfl, fun f hf => by cases hf; rfl,
    CustomRecover_fault_writes_500 (lit "PAZEMO") (some codeTransform)
      (PreRequest panickingHandler) (sampleContext (some goodBody))
      (PreRequest nopHandler (sampleContext (some goodBody))).1
      (Value.str (lit "boom")) goodBody.data rfl rfl rfl (fun f hf => by cases hf; rfl)⟩

/-- C3 fails on the code: when the wrapped handler panics and the context has no entry
under "body", or an entry that is not a string, the type assertion in the recovery path
panics in turn, so `CustomRecover` ends in a panic (a `*runtime.TypeAssertionError`) and
writes no response. -/
theorem CustomRecover_faults_again_without_string_body :
    (CustomRecover (lit "PAZEMO") none panickingHandler (sampleContext none)).2 =
      Exit.panicked (Value.error (typeAssertionError none)) ∧
    (CustomRecover (lit "PAZEMO") none panickingHandler (sampleContext none)).1.response =
      freshResponse ∧
    (CustomRecover (lit "PAZEMO") none (PreRequest overwritingHandler)
        (sampleContext (some goodBody))).2 =
      Exit.panicked (Value.error
        (typeAssertionError (some (Value.other (lit "int") (lit "7"))))) ∧
    (CustomRecover (lit "PAZEMO") none (PreRequest overwritingHandler)
        (sampleContext (some goodBody))).1.response = freshResponse ∧
    (typeAssertionError none).Error =
      lit "interface conversion: interface \x7b\x7d is nil, not string" :=
  ⟨rfl, rfl, rfl, rfl, by decide⟩

/-- C6: when the wrapped handler panics, leaving a string under "body",
`CustomRecover provider t next` returns normally with a nil error: the panic does not
leave the handler and no error is reported to the caller. -/
theorem CustomRecover_swallows_fault (provider : GoString) (t : Option ErrToRespFunc)
    (next : HandlerFunc) (c c1 : Context) (r : Value) (b : GoString)
    (hnext : next c = (c1, Exit.panicked r))
    (hbody : c1.Get BodyField = some (Value.str b)) :
    (CustomRecover provider t next c).2 = Exit.returned none :=
  (CustomRecover_of_panic provider t next c c1 r b hnext hbody).1

/-- Witness of C6 with the transform that answers `"code": 42`. -/
theorem CustomRecover_swallows_fault_witness :
    PreRequest panickingHandler (sampleContext (some goodBody)) =
      ((PreRequest nopHandler (sampleContext (some goodBody))).1,
        Exit.panicked (Value.str (lit "boom"))) ∧
    (PreRequest nopHandler (sampleContext (some goodBody))).1.Get BodyField =
      some (Value.str goodBody.data) ∧
    (CustomRecover (lit "PAZEMO") (some codeTransform) (PreRequest panickingHandler)
      (sampleContext (some goodBody))).2 = Exit.returned none :=
  ⟨rfl, rfl,
    CustomRecover_swallows_fault (lit "PAZEMO") (some codeTransform)
      (PreRequest panickingHandler) (sampleContext (some goodBody))
      (PreRequest nopHandler (sampleContext (some goodBody))).1
      (Value.str (lit "boom")) goodBody.data rfl rfl⟩

/-- C7: when the wrapped handler returns normally, with a nil error or with an ordinary
error, `CustomRecover provider t next` is the wrapped handler: same resulting context
(no response written, no log line added, transform unused) and same returned error. -/
theorem CustomRecover_normal_return_is_next (provider : GoString)
    (t : Option ErrToRespFunc) (next : HandlerFunc) (c c1 : Context) (e : Option GoError)
    (hnext : next c = (c1, Exit.returned e)) :
    CustomRecover provider t next c = next c := by
  unfold CustomRecover
  simp only [hnext]

/-- Witness of C7 with a handler that returns the ordinary error "not found". -/
theorem CustomRecover_normal_return_is_next_witness :
    failingHandler (sampleContext none) =
      (sampleContext none, Exit.returned (some (errorsNew (lit "not found")))) ∧
    CustomRecover (lit "PAZEMO") (some codeTransform) failingHandler (sampleContext none) =
      failingHandler (sampleContext none) :=
  ⟨rfl,
    CustomRecover_normal_return_is_next (lit "PAZEMO") (some codeTransform) failingHandler
      (sampleContext none) (sampleContext none) (some (errorsNew (lit "not found"))) rfl⟩

/-- C9 fails on the code: when the wrapped handler has committed a response (status 200,
the success envelope) and then panics, `CustomRecover` writes a second JSON document
after the first one, although the status line 200 has already been sent. -/
theorem CustomRecover_writes_second_response_after_commit :
    (PreRequest lateFaultHandler (sampleContext (some goodBody))).1.response =
      ⟨200, true, some 200, [[(lit "success", DictValue.other (lit "bool") (lit "true") none)]]⟩ ∧
    (CustomRecover (lit "PAZEMO") none (PreRequest lateFaultHandler)
        (sampleContext (some goodBody))).2 = Exit.returned none ∧
    (CustomRecover (lit "PAZEMO") none (PreRequest lateFaultHandler)
        (sampleContext (some goodBody))).1.response.header = some 200 ∧
    (CustomRecover (lit "PAZEMO") none (PreRequest lateFaultHandler)
        (sampleContext (some goodBody))).1.response.body =
      [[(lit "success", DictValue.other (lit "bool") (lit "true") none)],
       [(lit "err", DictValue.str (lit "err:internal_error"))]] ∧
    (CustomRecover (lit "PAZEMO") none (PreRequest lateFaultHandler)
        (sampleContext (some goodBody))).1.response.body.length = 2 :=
  ⟨rfl, rfl, rfl, rfl, rfl⟩

/-! ## Error normaliser (`GenCustomHttpErrorHandler`) -/

/-- C4, as stated, fails: with the transform whose envelope holds a NaN, on a response
that is not committed, `c.JSON(200, t(err))` cannot encode the envelope and
`GenCustomHttpErrorHandler t` sends nothing: only the `Status` field is set. -/
theorem GenCustomHttpErrorHandler_unencodable_envelope_writes_nothing :
    (sampleContext none).response.Committed = false ∧
    (GenCustomHttpErrorHandler (some nanTransform) (errorsNew (lit "not found"))
      (sampleContext none)).response = ⟨200, false, none, []⟩ ∧
    (GenCustomHttpErrorHandler (some nanTransform) (errorsNew (lit "not found"))
      (sampleContext none)).response.body ≠
      (sampleContext none).response.body ++ [nanTransform (errorsNew (lit "not found"))] :=
  ⟨rfl, rfl, by
    have h : (GenCustomHttpErrorHandler (some nanTransform) (errorsNew (lit "not found"))
      (sampleContext none)).response.body = [] := rfl
    rw [h]
    exact fun h0 => List.noConfusion h0⟩

/-- C4, amended: on a response that is not committed, when the transform `t` is nil or
its envelope `t(err)` is accepted by the JSON encoder, `GenCustomHttpErrorHandler t`
writes exactly one response, with status 200, whose body is the envelope with the single
entry "err": `err.Error()` when `t` is nil and `t(err)` otherwise; request, store and log
are left as they were. -/
theorem GenCustomHttpErrorHandler_writes_200 (t : Option ErrToRespFunc) (err : GoError)
    (c : Context) (hc : c.response.Committed = false)
    (henc : ∀ f, t = some f → marshalErr (f err) = none) :
    (GenCustomHttpErrorHandler t err c).response =
      ⟨200, true, some 200,
        c.response.body ++
          [match t with
           | none => [(lit "err", DictValue.str err.Error)]
           | some f => f err]⟩ ∧
    (GenCustomHttpErrorHandler t err c).request = c.request ∧
    (GenCustomHttpErrorHandler t err c).store = c.store ∧
    (GenCustomHttpErrorHandler t err c).log = c.log := by
  rw [GenCustomHttpErrorHandler_of_not_committed t err c hc]
  refine ⟨?_, (JSON_frame c 200 _).1, (JSON_frame c 200 _).2.1, (JSON_frame c 200 _).2.2⟩
  rw [JSON_response_of_not_committed _ _ _ hc (envelope_encodes t _ _ _ henc)]
  simp

/-- Witness of the amended C4: the error "not found" with the transform answering
`"code": 42` on a fresh response. -/
theorem GenCustomHttpErrorHandler_writes_200_witness :
    (sampleContext none).response.Committed = false ∧
    (∀ f, some codeTransform = some f → marshalErr (f (errorsNew (lit "not found"))) = none) ∧
    (GenCustomHttpErrorHandler (some codeTransform) (errorsNew (lit "not found"))
        (sampleContext none)).response =
      ⟨200, true, some 200,
        (sampleContext none).response.body ++ [codeTransform (errorsNew (lit "not found"))]⟩ ∧
    (GenCustomHttpErrorHandler (some codeTransform) (errorsNew (lit "not found"))
        (sampleContext none)).request = (sampleContext none).request ∧
    (GenCustomHttpErrorHandler (some codeTransform) (errorsNew (lit "not found"))
        (sampleContext none)).store = (sampleContext none).store ∧
    (GenCustomHttpErrorHandler (some codeTransform) (errorsNew (lit "not found"))
        (sampleContext none)).log = (sampleContext none).log :=
  ⟨rfl, fun f hf => by cases hf; rfl,
    GenCustomHttpErrorHandler_writes_200 (some codeTransform) (errorsNew (lit "not found"))
      (sampleContext none) rfl (fun f hf => by cases hf; rfl)⟩

/-- C5: on a committed response `GenCustomHttpErrorHandler t` returns the context it
received, whatever `t` and the error are (status and body unchanged, total function, so
no fault); hence, after an invocation that has written a response, a second invocation
with any transform and error changes nothing. -/
theorem GenCustomHttpErrorHandler_committed_noop (t t2 : Option ErrToRespFunc)
    (err err2 : GoError) (c : Context) :
    (c.response.Committed = true → GenCustomHttpErrorHandler t err c = c) ∧
    ((GenCustomHttpErrorHandler t err c).response.body ≠ c.response.body →
      GenCustomHttpErrorHandler t2 err2 (GenCustomHttpErrorHandler t err c) =
        GenCustomHttpErrorHandler t err c) := by
  have hnoop : ∀ (u : Option ErrToRespFunc) (e : GoError) (d : Context),
      d.response.Committed = true → GenCustomHttpErrorHandler u e d = d := by
    intro u e d hd
    unfold GenCustomHttpErrorHandler
    simp [hd]
  refine ⟨hnoop t err c, fun hw => hnoop t2 err2 _ ?_⟩
  cases hc : c.response.Committed with
  | true => exact absurd (by rw [hnoop t err c hc]) hw
  | false =>
    rw [GenCustomHttpErrorHandler_of_not_committed t err c hc] at hw ⊢
    exact JSON_commits_when_it_writes c 200 _ hc hw

/-- Witness of C5: the first part on the context left by `listenerHandler`, whose
response is committed; the second part after a first invocation that wrote the envelope
of the error "not found" on a fresh response. -/
theorem GenCustomHttpErrorHandler_committed_noop_witness :
    ((listenerHandler (sampleContext none)).1.response.Committed = true ∧
      GenCustomHttpErrorHandler (some codeTransform) (errorsNew (lit "not found"))
        (listenerHandler (sampleContext none)).1 = (listenerHandler (sampleContext none)).1) ∧
    ((GenCustomHttpErrorHandler none (errorsNew (lit "not found"))
        (sampleContext none)).response.body ≠ (sampleContext none).response.body ∧
      GenCustomHttpErrorHandler (some nanTransform) (errorsNew (lit "again"))
        (GenCustomHttpErrorHandler none (errorsNew (lit "not found")) (sampleContext none)) =
        GenCustomHttpErrorHandler none (errorsNew (lit "not found")) (sampleContext none)) :=
  have hw : (GenCustomHttpErrorHandler none (errorsNew (lit "not found"))
      (sampleContext none)).response.body ≠ (sampleContext none).response.body := by
    have h1 : (GenCustomHttpErrorHandler none (errorsNew (lit "not found"))
        (sampleContext none)).response.body =
        [[(lit "err", DictValue.str (errorsNew (lit "not found")).Error)]] := rfl
    have h2 : (sampleContext none).response.body = [] := rfl
    rw [h1, h2]
    exact fun h0 => List.noConfusion h0
  ⟨⟨rfl,
    (GenCustomHttpErrorHandler_committed_noop (some codeTransform) none
      (errorsNew (lit "not found")) (errorsNew (lit "not found"))
      (listenerHandler (sampleContext none)).1).1 rfl⟩,
   ⟨hw,
    (GenCustomHttpErrorHandler_committed_noop none (some nanTransform)
      (errorsNew (lit "not found")) (errorsNew (lit "again")) (sampleContext none)).2 hw⟩⟩

end Listener
